import Mathlib

/-
  Verification development for the grunge coherent-noise library
  (src/fractal.rs and src/test.rs). Machine floats (f32) are embedded as
  exact rationals; the mutable octave loop of the fractal generators is
  embedded as a left fold over List.range octaves, mirroring
  `for octave in range(0, octaves)` in the source. Rust's
  Result<f32, &str> is embedded as Except String rat.
-/

/-- Coordinate vector with two rational components, embedding cgmath
Vector2 of f32 as used by fractal.rs. -/
structure Vector2 where
  x : ℚ
  y : ℚ

/-- Modelled from the spec: a lattice-point hash for the primitive noise
function of primitives.rs, which is not among the given sources. The spec
only fixes the contract (hash the floor lattice point together with the
seed into a pseudo-random value); the mixing constants are an
implementation choice. -/
def lattice (x y : ℤ) (seed : ℕ) : ℚ :=
  (((x.natAbs * 1619 + y.natAbs * 31337 + seed * 6971) % 1024 : ℕ) : ℚ) / 512 - 1

/-- Modelled from the spec: the primitive gradient-noise function
`snoise_2d` of primitives.rs, which is not among the given sources. Per the
spec it is a total, deterministic function of (coordinate, seed), built by
hashing the floor lattice corners with the seed and interpolating across
the containing cell, with output in a fixed bounded range. -/
def snoise_2d (v : Vector2) (seed : ℕ) : ℚ :=
  (1 - Int.fract v.x) * (1 - Int.fract v.y) * lattice ⌊v.x⌋ ⌊v.y⌋ seed
    + Int.fract v.x * (1 - Int.fract v.y) * lattice (⌊v.x⌋ + 1) ⌊v.y⌋ seed
    + (1 - Int.fract v.x) * Int.fract v.y * lattice ⌊v.x⌋ (⌊v.y⌋ + 1) seed
    + Int.fract v.x * Int.fract v.y * lattice (⌊v.x⌋ + 1) (⌊v.y⌋ + 1) seed

/-- Embeds `static PINKNOISE_SCALE: f32 = 0.25;`. -/
def PINKNOISE_SCALE : ℚ := 0.25

/-- Embeds `static BILLOWNOISE_SCALE: f32 = 0.25;`. -/
def BILLOWNOISE_SCALE : ℚ := 0.25

/-- Embeds `pub struct PinkNoise` of fractal.rs. -/
structure PinkNoise where
  seed : ℕ
  frequency : ℚ
  persistence : ℚ
  lacunarity : ℚ
  octaves : ℕ

/-- Embeds `impl Default for PinkNoise`. -/
def PinkNoise.default : PinkNoise :=
  { seed := 0, frequency := 1.0, persistence := 0.5,
    lacunarity := 2.0, octaves := 6 }

/-- Embeds `PinkNoise::new`. -/
def PinkNoise.new (seed : ℕ) : PinkNoise :=
  { PinkNoise.default with seed := seed }

/-- One iteration of the octave loop in `PinkNoise::generate_2d`: the state
is (result, sample, persistence-accumulator) and `octave` is the loop
index. -/
def pinkStep (self : PinkNoise) (st : ℚ × Vector2 × ℚ) (octave : ℕ) :
    ℚ × Vector2 × ℚ :=
  (st.1 + st.2.2 * snoise_2d st.2.1 (self.seed + octave),
   { x := st.2.1.x * self.lacunarity, y := st.2.1.y * self.lacunarity },
   st.2.2 * self.persistence)

/-- Embeds `PinkNoise::generate_2d` of fractal.rs. -/
def PinkNoise.generate_2d (self : PinkNoise) (v : Vector2) : Except String ℚ :=
  if self.octaves ≤ 1 then
    Except.error ("The number of octaves must be two or greater.")
  else if self.octaves > 30 then
    Except.error ("The number of octaves must be less than 30.")
  else
    Except.ok (((List.range self.octaves).foldl (pinkStep self)
      (0, { x := v.x * self.frequency, y := v.y * self.frequency }, 1)).1
      * PINKNOISE_SCALE)

/-- Embeds `pub struct BillowNoise` of fractal.rs. -/
structure BillowNoise where
  seed : ℕ
  frequency : ℚ
  persistence : ℚ
  lacunarity : ℚ
  octaves : ℕ
  offset : ℚ

/-- Embeds `impl Default for BillowNoise`. -/
def BillowNoise.default : BillowNoise :=
  { seed := 0, frequency := 1.0, persistence := 0.5,
    lacunarity := 2.0, octaves := 6, offset := 0.2 }

/-- Embeds `BillowNoise::new`. -/
def BillowNoise.new (seed : ℕ) : BillowNoise :=
  { BillowNoise.default with seed := seed }

/-- One iteration of the octave loop in `BillowNoise::generate_2d`. -/
def billowStep (self : BillowNoise) (st : ℚ × Vector2 × ℚ) (octave : ℕ) :
    ℚ × Vector2 × ℚ :=
  (st.1 + st.2.2 * abs (snoise_2d st.2.1 (self.seed + octave) + self.offset),
   { x := st.2.1.x * self.lacunarity, y := st.2.1.y * self.lacunarity },
   st.2.2 * self.persistence)

/-- Embeds `BillowNoise::generate_2d` of fractal.rs. -/
def BillowNoise.generate_2d (self : BillowNoise) (v : Vector2) : Except String ℚ :=
  if self.octaves ≤ 1 then
    Except.error ("The number of octaves must be two or greater.")
  else if self.octaves > 30 then
    Except.error ("The number of octaves must be less than 30.")
  else
    Except.ok (((List.range self.octaves).foldl (billowStep self)
      (0, { x := v.x * self.frequency, y := v.y * self.frequency }, 1)).1
      * BILLOWNOISE_SCALE * 2 - 1)

/-- Modelled from the spec: the NoiseModule interface of primitives.rs
(not among the given sources), whose single operation is
`generate_2d(coordinate) -> Result<scalar, Error>`. A module value is
represented by that operation. -/
structure NoiseModule where
  generate_2d : Vector2 → Except String ℚ

/-- Modelled from the spec: the scale-and-bias modifier of modifiers.rs
(not among the given sources): the wrapper owns the inner module; its
generate calls the inner generate, propagates any error unchanged, and
otherwise returns `value * scale + bias`. -/
def NoiseModule.scalebias (m : NoiseModule) (scale bias : ℚ) : NoiseModule where
  generate_2d := fun v =>
    match m.generate_2d v with
    | Except.error e => Except.error e
    | Except.ok x => Except.ok (x * scale + bias)

/-- Modelled from the spec: the clamp modifier of modifiers.rs (not among
the given sources): the wrapper owns the inner module; its generate calls
the inner generate, propagates any error unchanged, and otherwise returns
`max(lowerBound, min(upperBound, value))`. -/
def NoiseModule.clamp (m : NoiseModule) (lowerBound upperBound : ℚ) : NoiseModule where
  generate_2d := fun v =>
    match m.generate_2d v with
    | Except.error e => Except.error e
    | Except.ok x => Except.ok (max lowerBound (min upperBound x))

/-- View of a PinkNoise value through the NoiseModule interface. -/
def PinkNoise.toModule (self : PinkNoise) : NoiseModule :=
  { generate_2d := self.generate_2d }

/-- View of a BillowNoise value through the NoiseModule interface. -/
def BillowNoise.toModule (self : BillowNoise) : NoiseModule :=
  { generate_2d := self.generate_2d }

/-- Modelled from the spec and test.rs: ConstNoise of primitives.rs (not
among the given sources), an always-successful module returning its
constant value. -/
def constNoise (value : ℚ) : NoiseModule :=
  { generate_2d := fun _ => Except.ok value }

/-- The coordinate sampled at octave `i`: the input scaled by frequency and
then multiplied `i` times componentwise by lacunarity. -/
def octaveSample (v : Vector2) (frequency lacunarity : ℚ) (i : ℕ) : Vector2 :=
  { x := v.x * frequency * lacunarity ^ i, y := v.y * frequency * lacunarity ^ i }

/-- Closed form of the PinkNoise octave accumulation before final scaling. -/
def pinkSum (self : PinkNoise) (v : Vector2) (n : ℕ) : ℚ :=
  ∑ i ∈ Finset.range n,
    self.persistence ^ i *
      snoise_2d (octaveSample v self.frequency self.lacunarity i) (self.seed + i)

/-- Closed form of the BillowNoise octave accumulation before final
scaling. -/
def billowSum (self : BillowNoise) (v : Vector2) (n : ℕ) : ℚ :=
  ∑ i ∈ Finset.range n,
    self.persistence ^ i *
      abs (snoise_2d (octaveSample v self.frequency self.lacunarity i) (self.seed + i)
        + self.offset)

theorem pink_foldl_eq (self : PinkNoise) (v : Vector2) (n : ℕ) :
    (List.range n).foldl (pinkStep self)
        (0, { x := v.x * self.frequency, y := v.y * self.frequency }, 1) =
      (pinkSum self v n, octaveSample v self.frequency self.lacunarity n,
        self.persistence ^ n) := by
  induction n with
  | zero =>
      simp only [List.range_zero, List.foldl_nil, pinkSum, Finset.range_zero,
        Finset.sum_empty, octaveSample, pow_zero, mul_one, Prod.mk.injEq]
  | succ n ih =>
      rw [List.range_succ, List.foldl_append, ih]
      simp only [List.foldl_cons, List.foldl_nil, pinkStep, pinkSum,
        Finset.sum_range_succ, octaveSample, Prod.mk.injEq, Vector2.mk.injEq]
      exact ⟨trivial, ⟨by ring, by ring⟩, by ring⟩

theorem billow_foldl_eq (self : BillowNoise) (v : Vector2) (n : ℕ) :
    (List.range n).foldl (billowStep self)
        (0, { x := v.x * self.frequency, y := v.y * self.frequency }, 1) =
      (billowSum self v n, octaveSample v self.frequency self.lacunarity n,
        self.persistence ^ n) := by
  induction n with
  | zero =>
      simp only [List.range_zero, List.foldl_nil, billowSum, Finset.range_zero,
        Finset.sum_empty, octaveSample, pow_zero, mul_one, Prod.mk.injEq]
  | succ n ih =>
      rw [List.range_succ, List.foldl_append, ih]
      simp only [List.foldl_cons, List.foldl_nil, billowStep, billowSum,
        Finset.sum_range_succ, octaveSample, Prod.mk.injEq, Vector2.mk.injEq]
      exact ⟨trivial, ⟨by ring, by ring⟩, by ring⟩

theorem pink_ok (self : PinkNoise) (v : Vector2)
    (h1 : 1 < self.octaves) (h2 : self.octaves ≤ 30) :
    self.generate_2d v
      = Except.ok (pinkSum self v self.octaves * PINKNOISE_SCALE) := by
  unfold PinkNoise.generate_2d
  rw [if_neg (by omega), if_neg (by omega), pink_foldl_eq]

theorem billow_ok (self : BillowNoise) (v : Vector2)
    (h1 : 1 < self.octaves) (h2 : self.octaves ≤ 30) :
    self.generate_2d v
      = Except.ok (billowSum self v self.octaves * BILLOWNOISE_SCALE * 2 - 1) := by
  unfold BillowNoise.generate_2d
  rw [if_neg (by omega), if_neg (by omega), billow_foldl_eq]

theorem pink_err_low (self : PinkNoise) (v : Vector2) (h : self.octaves ≤ 1) :
    self.generate_2d v
      = Except.error ("The number of octaves must be two or greater.") := by
  unfold PinkNoise.generate_2d
  rw [if_pos h]

theorem pink_err_high (self : PinkNoise) (v : Vector2) (h : 30 < self.octaves) :
    self.generate_2d v
      = Except.error ("The number of octaves must be less than 30.") := by
  unfold PinkNoise.generate_2d
  rw [if_neg (by omega), if_pos (by omega)]

theorem billow_err_low (self : BillowNoise) (v : Vector2) (h : self.octaves ≤ 1) :
    self.generate_2d v
      = Except.error ("The number of octaves must be two or greater.") := by
  unfold BillowNoise.generate_2d
  rw [if_pos h]

theorem billow_err_high (self : BillowNoise) (v : Vector2) (h : 30 < self.octaves) :
    self.generate_2d v
      = Except.error ("The number of octaves must be less than 30.") := by
  unfold BillowNoise.generate_2d
  rw [if_neg (by omega), if_pos (by omega)]

theorem lattice_mem (x y : ℤ) (s : ℕ) : -1 ≤ lattice x y s ∧ lattice x y s ≤ 1 := by
  unfold lattice
  have h1 : (x.natAbs * 1619 + y.natAbs * 31337 + s * 6971) % 1024 ≤ 1023 := by
    have := Nat.mod_lt (x.natAbs * 1619 + y.natAbs * 31337 + s * 6971)
      (show 0 < 1024 by norm_num)
    omega
  have h2 : (((x.natAbs * 1619 + y.natAbs * 31337 + s * 6971) % 1024 : ℕ) : ℚ) ≤ 1023 := by
    exact_mod_cast h1
  have h0 : (0 : ℚ) ≤ (((x.natAbs * 1619 + y.natAbs * 31337 + s * 6971) % 1024 : ℕ) : ℚ) :=
    Nat.cast_nonneg _
  constructor <;> linarith

theorem snoise_2d_mem (v : Vector2) (s : ℕ) :
    -1 ≤ snoise_2d v s ∧ snoise_2d v s ≤ 1 := by
  unfold snoise_2d
  obtain ⟨ha1, ha2⟩ := lattice_mem ⌊v.x⌋ ⌊v.y⌋ s
  obtain ⟨hb1, hb2⟩ := lattice_mem (⌊v.x⌋ + 1) ⌊v.y⌋ s
  obtain ⟨hc1, hc2⟩ := lattice_mem ⌊v.x⌋ (⌊v.y⌋ + 1) s
  obtain ⟨hd1, hd2⟩ := lattice_mem (⌊v.x⌋ + 1) (⌊v.y⌋ + 1) s
  have hfx0 : 0 ≤ Int.fract v.x := Int.fract_nonneg v.x
  have hfx1 : Int.fract v.x ≤ 1 := le_of_lt (Int.fract_lt_one v.x)
  have hfy0 : 0 ≤ Int.fract v.y := Int.fract_nonneg v.y
  have hfy1 : Int.fract v.y ≤ 1 := le_of_lt (Int.fract_lt_one v.y)
  have w1 : (0 : ℚ) ≤ (1 - Int.fract v.x) * (1 - Int.fract v.y) :=
    mul_nonneg (by linarith) (by linarith)
  have w2 : (0 : ℚ) ≤ Int.fract v.x * (1 - Int.fract v.y) :=
    mul_nonneg hfx0 (by linarith)
  have w3 : (0 : ℚ) ≤ (1 - Int.fract v.x) * Int.fract v.y :=
    mul_nonneg (by linarith) hfy0
  have w4 : (0 : ℚ) ≤ Int.fract v.x * Int.fract v.y := mul_nonneg hfx0 hfy0
  have u1 := mul_le_of_le_one_right w1 ha2
  have u2 := mul_le_of_le_one_right w2 hb2
  have u3 := mul_le_of_le_one_right w3 hc2
  have u4 := mul_le_of_le_one_right w4 hd2
  have l1 := mul_le_mul_of_nonneg_left ha1 w1
  have l2 := mul_le_mul_of_nonneg_left hb1 w2
  have l3 := mul_le_mul_of_nonneg_left hc1 w3
  have l4 := mul_le_mul_of_nonneg_left hd1 w4
  have hsum : (1 - Int.fract v.x) * (1 - Int.fract v.y)
      + Int.fract v.x * (1 - Int.fract v.y)
      + (1 - Int.fract v.x) * Int.fract v.y
      + Int.fract v.x * Int.fract v.y = 1 := by ring
  constructor <;> nlinarith [u1, u2, u3, u4, l1, l2, l3, l4, hsum]

/-- Claim C1: for every PinkNoise with 1 < octaves ≤ 30 and every
coordinate v, generate_2d returns Ok of 0.25 times the sum over octaves of
persistence^i * snoise_2d at the i-th frequency-and-lacunarity-scaled
sample with seed + i. -/
theorem pink_generate_2d_closed_form (self : PinkNoise) (v : Vector2)
    (h1 : 1 < self.octaves) (h2 : self.octaves ≤ 30) :
    self.generate_2d v = Except.ok (0.25 * pinkSum self v self.octaves) := by
  rw [pink_ok self v h1 h2]
  congr 1
  unfold PINKNOISE_SCALE
  ring

/-- Witness for C1 at octaves = 2, exercising the two-term closed form. -/
theorem pink_generate_2d_closed_form_witness :
    1 < (PinkNoise.mk 7 1 (1/2) 2 2).octaves ∧
    (PinkNoise.mk 7 1 (1/2) 2 2).octaves ≤ 30 ∧
    (PinkNoise.mk 7 1 (1/2) 2 2).generate_2d (Vector2.mk (1/3) (2/3))
      = Except.ok (0.25 * pinkSum (PinkNoise.mk 7 1 (1/2) 2 2) (Vector2.mk (1/3) (2/3)) 2) :=
  ⟨by decide, by decide,
    pink_generate_2d_closed_form (PinkNoise.mk 7 1 (1/2) 2 2) (Vector2.mk (1/3) (2/3))
      (by decide) (by decide)⟩

/-- Claim C2: for every BillowNoise with 1 < octaves ≤ 30 and every
coordinate v, generate_2d returns Ok of (sum over octaves of
persistence^i * |snoise_2d at the i-th sample + offset|) * 0.25 * 2 - 1. -/
theorem billow_generate_2d_closed_form (self : BillowNoise) (v : Vector2)
    (h1 : 1 < self.octaves) (h2 : self.octaves ≤ 30) :
    self.generate_2d v
      = Except.ok (billowSum self v self.octaves * 0.25 * 2 - 1) := by
  rw [billow_ok self v h1 h2]
  unfold BILLOWNOISE_SCALE
  rfl

/-- Witness for C2 at octaves = 2. -/
theorem billow_generate_2d_closed_form_witness :
    1 < (BillowNoise.mk 7 1 (1/2) 2 2 (1/5)).octaves ∧
    (BillowNoise.mk 7 1 (1/2) 2 2 (1/5)).octaves ≤ 30 ∧
    (BillowNoise.mk 7 1 (1/2) 2 2 (1/5)).generate_2d (Vector2.mk (1/3) (2/3))
      = Except.ok (billowSum (BillowNoise.mk 7 1 (1/2) 2 2 (1/5)) (Vector2.mk (1/3) (2/3)) 2
          * 0.25 * 2 - 1) :=
  ⟨by decide, by decide,
    billow_generate_2d_closed_form (BillowNoise.mk 7 1 (1/2) 2 2 (1/5))
      (Vector2.mk (1/3) (2/3)) (by decide) (by decide)⟩

/-- Claim C3: for both generators, generate_2d errors exactly when
octaves ≤ 1 (with the too-few message) or octaves > 30 (with the too-many
message), and succeeds for every octaves in 2..30 at any coordinate. -/
theorem generate_2d_error_iff_octaves (p : PinkNoise) (b : BillowNoise) (v w : Vector2) :
    ((∃ e, p.generate_2d v = Except.error e) ↔ (p.octaves ≤ 1 ∨ 30 < p.octaves)) ∧
    ((∃ e, b.generate_2d w = Except.error e) ↔ (b.octaves ≤ 1 ∨ 30 < b.octaves)) ∧
    (p.octaves ≤ 1 →
      p.generate_2d v = Except.error ("The number of octaves must be two or greater.")) ∧
    (30 < p.octaves →
      p.generate_2d v = Except.error ("The number of octaves must be less than 30.")) ∧
    (b.octaves ≤ 1 →
      b.generate_2d w = Except.error ("The number of octaves must be two or greater.")) ∧
    (30 < b.octaves →
      b.generate_2d w = Except.error ("The number of octaves must be less than 30.")) ∧
    (1 < p.octaves → p.octaves ≤ 30 → ∃ x, p.generate_2d v = Except.ok x) ∧
    (1 < b.octaves → b.octaves ≤ 30 → ∃ x, b.generate_2d w = Except.ok x) := by
  refine ⟨?_, ?_, fun h => pink_err_low p v h, fun h => pink_err_high p v h,
    fun h => billow_err_low b w h, fun h => billow_err_high b w h,
    fun h1 h2 => ⟨_, pink_ok p v h1 h2⟩, fun h1 h2 => ⟨_, billow_ok b w h1 h2⟩⟩
  · constructor
    · rintro ⟨e, he⟩
      by_contra hc
      push_neg at hc
      obtain ⟨hc1, hc2⟩ := hc
      rw [pink_ok p v hc1 hc2] at he
      exact Except.noConfusion he
    · rintro (h | h)
      · exact ⟨_, pink_err_low p v h⟩
      · exact ⟨_, pink_err_high p v h⟩
  · constructor
    · rintro ⟨e, he⟩
      by_contra hc
      push_neg at hc
      obtain ⟨hc1, hc2⟩ := hc
      rw [billow_ok b w hc1 hc2] at he
      exact Except.noConfusion he
    · rintro (h | h)
      · exact ⟨_, billow_err_low b w h⟩
      · exact ⟨_, billow_err_high b w h⟩

/-- Claim C4: new(seed) sets the seed and leaves every other field at its
documented default: frequency 1.0, persistence 0.5, lacunarity 2.0,
octaves 6, and (for BillowNoise) offset 0.2. -/
theorem new_sets_documented_defaults (s : ℕ) :
    (PinkNoise.new s).seed = s ∧ (PinkNoise.new s).frequency = 1.0 ∧
    (PinkNoise.new s).persistence = 0.5 ∧ (PinkNoise.new s).lacunarity = 2.0 ∧
    (PinkNoise.new s).octaves = 6 ∧
    (BillowNoise.new s).seed = s ∧ (BillowNoise.new s).frequency = 1.0 ∧
    (BillowNoise.new s).persistence = 0.5 ∧ (BillowNoise.new s).lacunarity = 2.0 ∧
    (BillowNoise.new s).octaves = 6 ∧ (BillowNoise.new s).offset = 0.2 :=
  ⟨rfl, rfl, rfl, rfl, rfl, rfl, rfl, rfl, rfl, rfl, rfl⟩

/-- Claim C5: a scale-and-bias or clamp wrapper returns the inner module's
error unchanged whenever the inner generate fails. -/
theorem modifier_error_propagation (m : NoiseModule) (a b lo hi : ℚ)
    (v : Vector2) (e : String) (h : m.generate_2d v = Except.error e) :
    (m.scalebias a b).generate_2d v = Except.error e ∧
    (m.clamp lo hi).generate_2d v = Except.error e := by
  constructor <;> simp [NoiseModule.scalebias, NoiseModule.clamp, h]

/-- Witness for C5: a PinkNoise with octaves = 1 fails, and both wrappers
return the identical error. -/
theorem modifier_error_propagation_witness :
    (PinkNoise.mk 0 1 (1/2) 2 1).toModule.generate_2d (Vector2.mk 0 0)
        = Except.error ("The number of octaves must be two or greater.") ∧
    (((PinkNoise.mk 0 1 (1/2) 2 1).toModule.scalebias (1/2) (1/2)).generate_2d
          (Vector2.mk 0 0)
        = Except.error ("The number of octaves must be two or greater.") ∧
      ((PinkNoise.mk 0 1 (1/2) 2 1).toModule.clamp 0 1).generate_2d (Vector2.mk 0 0)
        = Except.error ("The number of octaves must be two or greater.")) :=
  ⟨rfl, modifier_error_propagation (PinkNoise.mk 0 1 (1/2) 2 1).toModule
    (1/2) (1/2) 0 1 (Vector2.mk 0 0) _ rfl⟩

/-- Claim C6: on a successful inner value v, scalebias(a,b) yields exactly
v*a + b, clamp(lo,hi) yields exactly max(lo, min(hi, v)), and chaining
scalebias then clamp applies scale-and-bias strictly before clamp. -/
theorem modifier_success_composition (m : NoiseModule) (a b lo hi x : ℚ)
    (v : Vector2) (h : m.generate_2d v = Except.ok x) :
    (m.scalebias a b).generate_2d v = Except.ok (x * a + b) ∧
    (m.clamp lo hi).generate_2d v = Except.ok (max lo (min hi x)) ∧
    ((m.scalebias a b).clamp lo hi).generate_2d v
      = Except.ok (max lo (min hi (x * a + b))) := by
  refine ⟨?_, ?_, ?_⟩ <;> simp [NoiseModule.scalebias, NoiseModule.clamp, h]

/-- Witness for C6, mirroring test_boxes' scalebias(0.5, 0.5).clamp(0, 1)
chain over a constant module of value 5. -/
theorem modifier_success_composition_witness :
    (constNoise 5).generate_2d (Vector2.mk 0 0) = Except.ok 5 ∧
    (((constNoise 5).scalebias (1/2) (1/2)).generate_2d (Vector2.mk 0 0)
        = Except.ok (5 * (1/2) + 1/2) ∧
      ((constNoise 5).clamp 0 1).generate_2d (Vector2.mk 0 0)
        = Except.ok (max 0 (min 1 5)) ∧
      (((constNoise 5).scalebias (1/2) (1/2)).clamp 0 1).generate_2d (Vector2.mk 0 0)
        = Except.ok (max 0 (min 1 (5 * (1/2) + 1/2)))) :=
  ⟨rfl, modifier_success_composition (constNoise 5) (1/2) (1/2) 0 1 5
    (Vector2.mk 0 0) rfl⟩

/-- Claim C7: the primitive noise function snoise_2d is deterministic
(identical inputs give identical output), total, and its output lies in
the fixed bounded range [-1, 1]. -/
theorem snoise_2d_contract (v w : Vector2) (s t : ℕ) (hv : v = w) (hs : s = t) :
    snoise_2d v s = snoise_2d w t ∧ -1 ≤ snoise_2d v s ∧ snoise_2d v s ≤ 1 := by
  subst hv
  subst hs
  exact ⟨rfl, (snoise_2d_mem v s).1, (snoise_2d_mem v s).2⟩

/-- Witness for C7 at the origin with seed 0. -/
theorem snoise_2d_contract_witness :
    Vector2.mk 0 0 = Vector2.mk 0 0 ∧ (0 : ℕ) = 0 ∧
    (snoise_2d (Vector2.mk 0 0) 0 = snoise_2d (Vector2.mk 0 0) 0 ∧
      -1 ≤ snoise_2d (Vector2.mk 0 0) 0 ∧ snoise_2d (Vector2.mk 0 0) 0 ≤ 1) :=
  ⟨rfl, rfl, snoise_2d_contract (Vector2.mk 0 0) (Vector2.mk 0 0) 0 0 rfl rfl⟩

/-- Claim C8: generate_2d on either generator always returns exactly once,
with a result or an error, for every field combination and coordinate, and
a successful run implies the octave count had been validated (1 < octaves
and octaves ≤ 30, the bound on the only loop) before the loop ran. -/
theorem generate_2d_total (p : PinkNoise) (b : BillowNoise) (v w : Vector2) :
    ((∃ x, p.generate_2d v = Except.ok x) ∨ (∃ e, p.generate_2d v = Except.error e)) ∧
    ((∃ x, b.generate_2d w = Except.ok x) ∨ (∃ e, b.generate_2d w = Except.error e)) ∧
    (∀ x, p.generate_2d v = Except.ok x → 1 < p.octaves ∧ p.octaves ≤ 30) ∧
    (∀ x, b.generate_2d w = Except.ok x → 1 < b.octaves ∧ b.octaves ≤ 30) := by
  refine ⟨?_, ?_, ?_, ?_⟩
  · rcases le_or_lt p.octaves 1 with h | h
    · exact Or.inr ⟨_, pink_err_low p v h⟩
    · rcases le_or_lt p.octaves 30 with h2 | h2
      · exact Or.inl ⟨_, pink_ok p v h h2⟩
      · exact Or.inr ⟨_, pink_err_high p v h2⟩
  · rcases le_or_lt b.octaves 1 with h | h
    · exact Or.inr ⟨_, billow_err_low b w h⟩
    · rcases le_or_lt b.octaves 30 with h2 | h2
      · exact Or.inl ⟨_, billow_ok b w h h2⟩
      · exact Or.inr ⟨_, billow_err_high b w h2⟩
  · intro x hx
    rcases le_or_lt p.octaves 1 with h | h
    · rw [pink_err_low p v h] at hx
      exact Except.noConfusion hx
    · rcases le_or_lt p.octaves 30 with h2 | h2
      · exact ⟨h, h2⟩
      · rw [pink_err_high p v h2] at hx
        exact Except.noConfusion hx
  · intro x hx
    rcases le_or_lt b.octaves 1 with h | h
    · rw [billow_err_low b w h] at hx
      exact Except.noConfusion hx
    · rcases le_or_lt b.octaves 30 with h2 | h2
      · exact ⟨h, h2⟩
      · rw [billow_err_high b w h2] at hx
        exact Except.noConfusion hx

/-- Claim C9: with 1 < octaves ≤ 30, generate_2d succeeds for every value
of the remaining fields (frequency, persistence, lacunarity, offset),
including zero and negative ones — only octaves is ever validated. -/
theorem generate_2d_validates_only_octaves (p : PinkNoise) (b : BillowNoise)
    (v w : Vector2) (hp1 : 1 < p.octaves) (hp2 : p.octaves ≤ 30)
    (hb1 : 1 < b.octaves) (hb2 : b.octaves ≤ 30) :
    (∃ x, p.generate_2d v = Except.ok x) ∧ (∃ x, b.generate_2d w = Except.ok x) :=
  ⟨⟨_, pink_ok p v hp1 hp2⟩, ⟨_, billow_ok b w hb1 hb2⟩⟩

/-- Witness for C9 with zero and negative frequency, persistence,
lacunarity and offset values. -/
theorem generate_2d_validates_only_octaves_witness :
    1 < (PinkNoise.mk 0 0 (-1) (-2) 5).octaves ∧
    (PinkNoise.mk 0 0 (-1) (-2) 5).octaves ≤ 30 ∧
    1 < (BillowNoise.mk 3 (-1) 0 0 30 (-2)).octaves ∧
    (BillowNoise.mk 3 (-1) 0 0 30 (-2)).octaves ≤ 30 ∧
    ((∃ x, (PinkNoise.mk 0 0 (-1) (-2) 5).generate_2d (Vector2.mk (-1) 0)
        = Except.ok x) ∧
      (∃ x, (BillowNoise.mk 3 (-1) 0 0 30 (-2)).generate_2d (Vector2.mk 0 0)
        = Except.ok x)) :=
  ⟨by decide, by decide, by decide, by decide,
    generate_2d_validates_only_octaves (PinkNoise.mk 0 0 (-1) (-2) 5)
      (BillowNoise.mk 3 (-1) 0 0 30 (-2)) (Vector2.mk (-1) 0) (Vector2.mk 0 0)
      (by decide) (by decide) (by decide) (by decide)⟩

/-- Claim C10: for a BillowNoise with persistence ≥ 0 and valid octaves,
each octave contributes a non-negative amount, so the successful output
result * 0.25 * 2 - 1 is at least -1 at every coordinate. -/
theorem billow_generate_2d_lower_bound (b : BillowNoise) (v : Vector2)
    (hp : 0 ≤ b.persistence) (h1 : 1 < b.octaves) (h2 : b.octaves ≤ 30) :
    ∃ x, b.generate_2d v = Except.ok x ∧ -1 ≤ x := by
  refine ⟨_, billow_ok b v h1 h2, ?_⟩
  have hsum : 0 ≤ billowSum b v b.octaves := by
    unfold billowSum
    exact Finset.sum_nonneg fun i _ => mul_nonneg (pow_nonneg hp i) (abs_nonneg _)
  unfold BILLOWNOISE_SCALE
  linarith

/-- Witness for C10 with the default-like parameters at octaves = 2. -/
theorem billow_generate_2d_lower_bound_witness :
    0 ≤ (BillowNoise.mk 0 1 (1/2) 2 2 (1/5)).persistence ∧
    1 < (BillowNoise.mk 0 1 (1/2) 2 2 (1/5)).octaves ∧
    (BillowNoise.mk 0 1 (1/2) 2 2 (1/5)).octaves ≤ 30 ∧
    (∃ x, (BillowNoise.mk 0 1 (1/2) 2 2 (1/5)).generate_2d (Vector2.mk 1 1)
        = Except.ok x ∧ -1 ≤ x) :=
  ⟨by norm_num, by decide, by decide,
    billow_generate_2d_lower_bound (BillowNoise.mk 0 1 (1/2) 2 2 (1/5))
      (Vector2.mk 1 1) (by norm_num) (by decide) (by decide)⟩
